import Mathlib

/-!
Verification of the Apex workout tracker's active-session state machine,
progressive-overload engine, persistence recovery, and rest-timer controller.

The definitions below are a shallow embedding of the TypeScript source:

* `src/store/use-app-store.ts` — the zustand store holding the active
  workout session and its transitions (start, pause, resume, tap-set,
  custom reps, bodyweight, finish, discard) and the cold-start recovery
  routine `loadPersistedState`;
* `src/lib/database.ts` — `normalizeActiveWorkoutSession` (structural
  validation of the persisted session blob) and `advanceWorkoutWeek`;
* `src/screens/WorkoutsScreen.tsx` — `getElapsedMs`, the tap handler's
  rest-timer signal, and the token-guarded rest-notification controller.

Modelling conventions:

* JavaScript numbers are modelled as `Rat` (JSON cannot denote NaN or
  infinities, so every number reaching these functions is finite; the
  `Number.isFinite` guards in the source therefore collapse to `true`).
* Timestamps (`Date.now()`) are `Rat` values passed explicitly as `now`.
* The zustand store state is `StoreState`; each transition returns a
  `StepResult` carrying the thrown error (if any), the resulting state,
  and the ordered list of persistence effects (`DbEffect`) it issued.
  A thrown error leaves the state exactly as it was, matching the source
  where the `throw` happens before any `set(...)` call.
* The store's presentational fields (`hydrated`, `mutating`,
  `error: string | null`, the settings) and the `listWorkouts()` refresh
  inside `finishActiveWorkoutSession` are omitted: no claim mentions
  them and they do not feed back into the session logic.
* `createId(...)` is modelled by an explicit id-supply function argument.
-/

namespace Apex

/-- JSON values, as produced by `JSON.parse` on the persisted blob.
Numbers are `Rat` (JSON numerals are always finite). -/
inductive Json where
  | null : Json
  | bool (b : Bool) : Json
  | num (x : Rat) : Json
  | str (s : String) : Json
  | arr (items : List Json) : Json
  | obj (fields : List (String × Json)) : Json
deriving Repr, Inhabited

/-- JS property access `value.key`: `none` models `undefined`
(absent key, or receiver that is not an object). -/
def Json.getField (j : Json) (key : String) : Option Json :=
  match j with
  | Json.obj fields => fields.lookup key
  | _ => none

/-- `typeof v === 'number'` projection. -/
def Json.asNum : Json → Option Rat
  | Json.num x => some x
  | _ => none

/-- `typeof v === 'string'` projection. -/
def Json.asStr : Json → Option String
  | Json.str s => some s
  | _ => none

/-- `typeof v === 'boolean'` projection. -/
def Json.asBool : Json → Option Bool
  | Json.bool b => some b
  | _ => none

/-- `src/types/workout.ts` — `WorkoutExercise`. -/
structure WorkoutExercise where
  id : String
  name : String
  sets : Rat
  reps : Rat
  restSeconds : Rat
  startWeightKg : Rat
  overloadIncrementKg : Rat
  sortOrder : Rat
deriving Repr, DecidableEq

/-- `src/types/workout.ts` — `Workout` (the template). The `sessions`
history list is omitted: no modelled operation reads it. -/
structure Workout where
  id : String
  name : String
  createdAt : Rat
  weeksCompleted : Rat
  exercises : List WorkoutExercise
deriving Repr, DecidableEq

/-- `src/types/workout.ts` — `ActiveWorkoutSet`.

`actualWeightKg` is `Option Rat`: the declared type in
`src/types/workout.ts` omits the field, and sets built by
`buildSessionSets` in the store leave it `undefined` (`none`); the
structural normalization in `src/lib/database.ts` (lines 206–258) and
the session screen read and populate it, so the runtime shape carries
it as a number (`some`) after any load from storage. -/
structure ActiveWorkoutSet where
  id : String
  workoutExerciseId : String
  exerciseName : String
  setNumber : Rat
  targetReps : Rat
  targetWeightKg : Rat
  restSeconds : Rat
  actualReps : Rat
  actualWeightKg : Option Rat
deriving Repr, DecidableEq

/-- `src/types/workout.ts` — `ActiveWorkoutSession`. -/
structure ActiveWorkoutSession where
  workoutId : String
  workoutName : String
  startedAt : Rat
  bodyweightKg : Option Rat
  totalPausedMs : Rat
  pauseStartedAt : Option Rat
  isPaused : Bool
  restoredFromAppClose : Bool
  sets : List ActiveWorkoutSet
deriving Repr, DecidableEq

/-- `src/types/workout.ts` — `NewWorkoutSessionSetInput`, the per-set
payload handed to `createWorkoutSession` when finishing. -/
structure NewWorkoutSessionSetInput where
  workoutExerciseId : String
  exerciseName : String
  setNumber : Rat
  reps : Rat
  weightKg : Rat
deriving Repr, DecidableEq

/-- `src/types/workout.ts` — `NewWorkoutSessionInput`, the history
record payload handed to `createWorkoutSession`. -/
structure NewWorkoutSessionInput where
  workoutId : String
  performedAt : Rat
  bodyweightKg : Option Rat
  sets : List NewWorkoutSessionSetInput
deriving Repr, DecidableEq

/-- `DEFAULT_REST_SECONDS` is imported from `src/constants/workout.ts`,
which is not part of the provided sources; the database schema in
`src/lib/database.ts` declares `rest_seconds INTEGER NOT NULL DEFAULT 90`,
fixing the value at 90. No claim's outcome depends on this value. -/
def DEFAULT_REST_SECONDS : Rat := 90

/-- `src/store/use-app-store.ts` lines 76–78 — progressive-overload
target weight. -/
def getTargetWeightKg (workout : Workout) (exercise : WorkoutExercise) : Rat :=
  exercise.startWeightKg + exercise.overloadIncrementKg * workout.weeksCompleted

/-- JS `Array.from({length: n})` length coercion (ToLength): truncate,
clamp below at 0. -/
def jsToLength (x : Rat) : Nat :=
  x.floor.toNat

/-- `src/store/use-app-store.ts` lines 80–95 — expand a template into
the live set list. `ids exerciseIndex setIndex` stands in for
`createId('active_set')`. The built sets carry no `actualWeightKg`
(the field is absent in the source object literal), hence `none`. -/
def buildSessionSets (workout : Workout) (ids : Nat → Nat → String) : List ActiveWorkoutSet :=
  (workout.exercises.enum.map (fun p =>
    let exercise := p.2
    let targetWeightKg := getTargetWeightKg workout exercise
    (List.range (jsToLength exercise.sets)).map (fun index =>
      ({ id := ids p.1 index
         workoutExerciseId := exercise.id
         exerciseName := exercise.name
         setNumber := (index : Rat) + 1
         targetReps := exercise.reps
         targetWeightKg := targetWeightKg
         restSeconds := exercise.restSeconds
         actualReps := 0
         actualWeightKg := none } : ActiveWorkoutSet)))).flatten

/-- `src/store/use-app-store.ts` lines 97–103 — milliseconds spent in
the current pause, 0 when not paused. -/
def elapsedPauseMs (session : ActiveWorkoutSession) (now : Rat) : Rat :=
  match session.isPaused, session.pauseStartedAt with
  | true, some t => max 0 (now - t)
  | _, _ => 0

/-- `src/store/use-app-store.ts` lines 105–115 — pure pause step. -/
def pauseSession (session : ActiveWorkoutSession) (now : Rat) : ActiveWorkoutSession :=
  if session.isPaused then
    session
  else
    { session with isPaused := true, pauseStartedAt := some now }

/-- `src/store/use-app-store.ts` lines 117–132 — pure resume step. -/
def resumeSession (session : ActiveWorkoutSession) (now : Rat) : ActiveWorkoutSession :=
  if !session.isPaused then
    { session with restoredFromAppClose := false }
  else
    { session with
        totalPausedMs := session.totalPausedMs + elapsedPauseMs session now
        isPaused := false
        pauseStartedAt := none
        restoredFromAppClose := false }

/-- `src/screens/WorkoutsScreen.tsx` lines 127–136 — elapsed training
time derived from timestamps. -/
def getElapsedMs (session : ActiveWorkoutSession) (now : Rat) : Rat :=
  let pausedDelta :=
    match session.isPaused, session.pauseStartedAt with
    | true, some t => now - t
    | _, _ => 0
  max 0 (now - session.startedAt - session.totalPausedMs - pausedDelta)

/-- Errors thrown by store transitions (`throw new Error(...)` in the
source, distinguished here by their message). `conflict` is
`'Finish or discard the current active workout first.'`;
`workoutNotFound` is `'Workout not found.'`. -/
inductive StoreError where
  | conflict
  | workoutNotFound
deriving Repr, DecidableEq

/-- Persistence calls a transition issues, in order. -/
inductive DbEffect where
  | saveActive (session : ActiveWorkoutSession)
  | clearActive
  | createSession (input : NewWorkoutSessionInput)
deriving Repr, DecidableEq

/-- The store slice the session logic reads and writes. -/
structure StoreState where
  workouts : List Workout
  activeSession : Option ActiveWorkoutSession
deriving Repr, DecidableEq

/-- Outcome of one store transition: the error it threw (if any), the
resulting store slice, and the persistence effects issued. On a throw
the state is the unchanged input state. -/
structure StepResult where
  error : Option StoreError
  state : StoreState
  effects : List DbEffect
deriving Repr, DecidableEq

/-- `src/store/use-app-store.ts` lines 381–411 — `startWorkoutSession`. -/
def startWorkoutSession (st : StoreState) (workoutId : String) (now : Rat)
    (ids : Nat → Nat → String) : StepResult :=
  match st.activeSession with
  | some existingSession =>
    if existingSession.workoutId ≠ workoutId then
      ⟨some StoreError.conflict, st, []⟩
    else
      ⟨none, st, []⟩
  | none =>
    match st.workouts.find? (fun item => item.id == workoutId) with
    | none => ⟨some StoreError.workoutNotFound, st, []⟩
    | some workout =>
      let nextSession : ActiveWorkoutSession :=
        { workoutId := workout.id
          workoutName := workout.name
          startedAt := now
          bodyweightKg := none
          totalPausedMs := 0
          pauseStartedAt := none
          isPaused := false
          restoredFromAppClose := false
          sets := buildSessionSets workout ids }
      ⟨none, { st with activeSession := some nextSession },
        [DbEffect.saveActive nextSession]⟩

/-- `src/store/use-app-store.ts` lines 412–432 — `setActiveWorkoutBodyweight`.
The `Number.isFinite` guard collapses (numbers are finite here). -/
def setActiveWorkoutBodyweight (st : StoreState) (bodyweightKg : Option Rat) : StepResult :=
  match st.activeSession with
  | none => ⟨none, st, []⟩
  | some session =>
    let normalizedBodyweight :=
      match bodyweightKg with
      | none => none
      | some b => some (max 0 b)
    if session.bodyweightKg = normalizedBodyweight then
      ⟨none, st, []⟩
    else
      let nextSession := { session with bodyweightKg := normalizedBodyweight }
      ⟨none, { st with activeSession := some nextSession },
        [DbEffect.saveActive nextSession]⟩

/-- `src/store/use-app-store.ts` lines 433–446 — `pauseActiveWorkoutSession`. -/
def pauseActiveWorkoutSession (st : StoreState) (now : Rat) : StepResult :=
  match st.activeSession with
  | none => ⟨none, st, []⟩
  | some session =>
    if session.isPaused then
      ⟨none, st, []⟩
    else
      let nextSession := { pauseSession session now with restoredFromAppClose := false }
      ⟨none, { st with activeSession := some nextSession },
        [DbEffect.saveActive nextSession]⟩

/-- `src/store/use-app-store.ts` lines 447–457 — `resumeActiveWorkoutSession`. -/
def resumeActiveWorkoutSession (st : StoreState) (now : Rat) : StepResult :=
  match st.activeSession with
  | none => ⟨none, st, []⟩
  | some session =>
    if !session.isPaused then
      ⟨none, st, []⟩
    else
      let nextSession := resumeSession session now
      ⟨none, { st with activeSession := some nextSession },
        [DbEffect.saveActive nextSession]⟩

/-- Body of the `session.sets.map` callback in
`decrementOrCompleteSessionSet` (lines 472–482), applied to a matching
set: complete a fresh set to `targetReps`, else decrement floored at 0. -/
def decrementOrCompleteSetEntry (setEntry : ActiveWorkoutSet) : ActiveWorkoutSet :=
  if setEntry.actualReps = 0 then
    { setEntry with actualReps := setEntry.targetReps }
  else
    { setEntry with actualReps := max 0 (setEntry.actualReps - 1) }

/-- `src/store/use-app-store.ts` lines 458–496 — `decrementOrCompleteSessionSet`.
The source's `changed` flag is set exactly when some set's id matches. -/
def decrementOrCompleteSessionSet (st : StoreState) (setId : String) : StepResult :=
  match st.activeSession with
  | none => ⟨none, st, []⟩
  | some session =>
    let changed := session.sets.any (fun setEntry => setEntry.id == setId)
    let nextSets := session.sets.map (fun setEntry =>
      if setEntry.id == setId then decrementOrCompleteSetEntry setEntry else setEntry)
    if !changed then
      ⟨none, st, []⟩
    else
      let nextSession := { session with sets := nextSets }
      ⟨none, { st with activeSession := some nextSession },
        [DbEffect.saveActive nextSession]⟩

/-- `src/store/use-app-store.ts` lines 497–529 — `setSessionSetCustomReps`.
`normalizedReps = Math.max(0, Math.floor(reps))`. -/
def setSessionSetCustomReps (st : StoreState) (setId : String) (reps : Rat) : StepResult :=
  match st.activeSession with
  | none => ⟨none, st, []⟩
  | some session =>
    let normalizedReps : Rat := max 0 (reps.floor : Rat)
    let changed := session.sets.any (fun setEntry => setEntry.id == setId)
    let nextSets := session.sets.map (fun setEntry =>
      if setEntry.id == setId then { setEntry with actualReps := normalizedReps } else setEntry)
    if !changed then
      ⟨none, st, []⟩
    else
      let nextSession := { session with sets := nextSets }
      ⟨none, { st with activeSession := some nextSession },
        [DbEffect.saveActive nextSession]⟩

/-- `src/store/use-app-store.ts` lines 530–567 — `finishActiveWorkoutSession`
(success path; the `listWorkouts()` refresh is an external read and is
omitted). Note line 549 of the source: the history `weightKg` is
`setEntry.targetWeightKg`. -/
def finishActiveWorkoutSession (st : StoreState) (now : Rat) : StepResult :=
  match st.activeSession with
  | none => ⟨none, st, []⟩
  | some session =>
    let input : NewWorkoutSessionInput :=
      { workoutId := session.workoutId
        performedAt := now
        bodyweightKg := session.bodyweightKg
        sets := session.sets.map (fun setEntry =>
          { workoutExerciseId := setEntry.workoutExerciseId
            exerciseName := setEntry.exerciseName
            setNumber := setEntry.setNumber
            reps := setEntry.actualReps
            weightKg := setEntry.targetWeightKg }) }
    ⟨none, { st with activeSession := none },
      [DbEffect.createSession input, DbEffect.clearActive]⟩

/-- `src/store/use-app-store.ts` lines 568–582 — `discardActiveWorkoutSession`. -/
def discardActiveWorkoutSession (st : StoreState) : StepResult :=
  match st.activeSession with
  | none => ⟨none, st, []⟩
  | some _ =>
    ⟨none, { st with activeSession := none }, [DbEffect.clearActive]⟩

/-- `src/lib/database.ts` lines 657–668 — `advanceWorkoutWeek`:
`UPDATE workouts SET weeks_completed = weeks_completed + 1 WHERE id = ?`. -/
def advanceWorkoutWeek (workouts : List Workout) (workoutId : String) : List Workout :=
  workouts.map (fun w =>
    if w.id == workoutId then { w with weeksCompleted := w.weeksCompleted + 1 } else w)

/-- `src/lib/database.ts` lines 206–233 and 248–258 — structural
validation and normalization of one persisted set. The source computes
the same normalized `restSeconds` and `actualWeightKg` twice (once in
the `every` check, once in the final `map`); both passes are combined
here. A non-object (`!set || typeof set !== 'object'`) fails; in JS an
array would pass that guard but then fail every `typeof ... === 'string'`
field check, so mapping arrays to `none` directly is behaviour-preserving.
The two `Number.isFinite` guards collapse (JSON numbers are finite). -/
def normalizeActiveWorkoutSet (j : Json) : Option ActiveWorkoutSet :=
  match (j.getField "id").bind Json.asStr,
        (j.getField "workoutExerciseId").bind Json.asStr,
        (j.getField "exerciseName").bind Json.asStr,
        (j.getField "setNumber").bind Json.asNum,
        (j.getField "targetReps").bind Json.asNum,
        (j.getField "targetWeightKg").bind Json.asNum,
        (j.getField "actualReps").bind Json.asNum with
  | some id, some workoutExerciseId, some exerciseName, some setNumber,
      some targetReps, some targetWeightKg, some actualReps =>
    let normalizedRestSeconds : Rat :=
      match (j.getField "restSeconds").bind Json.asNum with
      | some r => if 0 < r then (r.floor : Rat) else DEFAULT_REST_SECONDS
      | none => DEFAULT_REST_SECONDS
    let normalizedActualWeightKg : Rat :=
      match (j.getField "actualWeightKg").bind Json.asNum with
      | some w => w
      | none => targetWeightKg
    some { id := id
           workoutExerciseId := workoutExerciseId
           exerciseName := exerciseName
           setNumber := setNumber
           targetReps := targetReps
           targetWeightKg := targetWeightKg
           restSeconds := normalizedRestSeconds
           actualReps := actualReps
           actualWeightKg := some normalizedActualWeightKg }
  | _, _, _, _, _, _, _ => none

/-- `bodyweightKg` handling in `normalizeActiveWorkoutSession`
(lines 189–190 and the type check at line 196): `undefined`/`null`
normalize to `null`; a number passes through; any other type makes the
whole blob invalid. The outer `some` means "structurally acceptable". -/
def normalizeBodyweightField (field : Option Json) : Option (Option Rat) :=
  match field with
  | none => some none
  | some Json.null => some none
  | some (Json.num x) => some (some x)
  | some _ => none

/-- `pauseStartedAt` check (line 198):
`session.pauseStartedAt !== null && typeof session.pauseStartedAt !== 'number'`
rejects; note an absent field (`undefined`) is rejected. -/
def normalizePauseStartedAtField (field : Option Json) : Option (Option Rat) :=
  match field with
  | some Json.null => some none
  | some (Json.num x) => some (some x)
  | _ => none

/-- `src/lib/database.ts` lines 183–260 — `normalizeActiveWorkoutSession`:
field-by-field structural validation of the parsed blob; any mismatch
yields `none` ("no active session") instead of an exception. The
`!value || typeof value !== 'object'` guard admits only objects (arrays
would fall through it in JS but then fail every field check, so sending
them to `none` directly is behaviour-preserving). -/
def normalizeActiveWorkoutSession (value : Json) : Option ActiveWorkoutSession :=
  match value with
  | Json.obj _ =>
    match (value.getField "workoutId").bind Json.asStr,
          (value.getField "workoutName").bind Json.asStr,
          (value.getField "startedAt").bind Json.asNum,
          normalizeBodyweightField (value.getField "bodyweightKg"),
          (value.getField "totalPausedMs").bind Json.asNum,
          normalizePauseStartedAtField (value.getField "pauseStartedAt"),
          (value.getField "isPaused").bind Json.asBool,
          (value.getField "restoredFromAppClose").bind Json.asBool,
          value.getField "sets" with
    | some workoutId, some workoutName, some startedAt, some bodyweightKg,
        some totalPausedMs, some pauseStartedAt, some isPaused,
        some restoredFromAppClose, some (Json.arr setsJson) =>
      match setsJson.mapM normalizeActiveWorkoutSet with
      | some sets =>
        some { workoutId := workoutId
               workoutName := workoutName
               startedAt := startedAt
               bodyweightKg := bodyweightKg
               totalPausedMs := totalPausedMs
               pauseStartedAt := pauseStartedAt
               isPaused := isPaused
               restoredFromAppClose := restoredFromAppClose
               sets := sets }
      | none => none
    | _, _, _, _, _, _, _, _, _ => none
  | _ => none

/-- `src/lib/database.ts` lines 262–278 — `loadActiveWorkoutSession`:
read the singleton row (here: the already-parsed payload, `none` when
the row is absent or `JSON.parse` threw) and normalize it. -/
def loadActiveWorkoutSession (stored : Option Json) : Option ActiveWorkoutSession :=
  stored.bind normalizeActiveWorkoutSession

/-- Result of the cold-start recovery routine: the adopted active
session and the persistence effects issued, in order. (Settings and the
template list also returned by the source function are orthogonal and
omitted.) -/
structure RecoveryResult where
  activeSession : Option ActiveWorkoutSession
  effects : List DbEffect
deriving Repr, DecidableEq

/-- `src/store/use-app-store.ts` lines 136–163 — `loadPersistedState`:
load the blob; drop it (and clear storage) when its `workoutId` no
longer matches a template; force-pause a non-paused session at `now`,
mark it `restoredFromAppClose`, and re-persist it. The source's two
sequential `if` blocks reassigning `activeSession` are mutually
exclusive (after the first nulls it, the second cannot fire), so they
are rendered as nested conditionals. -/
def loadPersistedState (stored : Option Json) (workouts : List Workout)
    (now : Rat) : RecoveryResult :=
  match loadActiveWorkoutSession stored with
  | none => ⟨none, []⟩
  | some s =>
    if workouts.any (fun workout => workout.id == s.workoutId) then
      if !s.isPaused then
        let restored := { pauseSession s now with restoredFromAppClose := true }
        ⟨some restored, [DbEffect.saveActive restored]⟩
      else
        ⟨some s, []⟩
    else
      ⟨none, [DbEffect.clearActive]⟩

/-- `src/screens/WorkoutsScreen.tsx` lines 903–904 — `handleSetPress`
captures `shouldStartRest = setEntry.actualReps === 0` before running
the tap transition, and starts the rest timer exactly when it is true
(line 915). -/
def handleSetPressStartsRest (setEntry : ActiveWorkoutSet) : Bool :=
  setEntry.actualReps = 0

/-!
Rest-timer notification controller, `src/screens/WorkoutsScreen.tsx`
lines 856–901 (`clearRestTimer` / `startRestTimer`).

The screen keeps a monotonically increasing token
(`restScheduleTokenRef`), the adopted notification handle
(`restNotificationId`), and asks the OS to schedule / cancel
notifications asynchronously. The model below:

* `RestControllerState.token` — `restScheduleTokenRef.current`;
* `RestControllerState.notifId` — `restNotificationId`;
* `RestControllerState.pending` — captured tokens of `startRestTimer`
  calls whose `scheduleRestCompleteNotification` has not yet resolved;
* `RestControllerState.scheduled` — handles of notifications currently
  scheduled with the OS and not cancelled (the "live" set).

Each OS handle is identified with the captured token of the schedule
call that created it: both are unique per call, so this renaming loses
nothing. A `startRestTimer` call is split at its `await` into
`startCall` (the synchronous prefix through requesting the schedule)
and `resolve` (the token check when the schedule call returns);
`resolveNull` is the resolution in which the schedule call returned
`null` (notification permission denied — nothing was scheduled). -/
structure RestControllerState where
  token : Nat
  notifId : Option Nat
  pending : List Nat
  scheduled : List Nat
deriving Repr, DecidableEq

/-- Initial controller state: `useRef(0)`, no handle, nothing in flight. -/
def restInit : RestControllerState := ⟨0, none, [], []⟩

/-- Cancel the currently adopted handle, if any (the
`if (notificationToCancel) await cancelScheduledNotification(...)`
pattern shared by both functions). -/
def cancelAdopted (scheduled : List Nat) (notifId : Option Nat) : List Nat :=
  match notifId with
  | some h => scheduled.erase h
  | none => scheduled

/-- Interleaving events of the rest-timer controller. -/
inductive RestEvent where
  | startCall
  | clearCall
  | resolve (captured : Nat)
  | resolveNull (captured : Nat)
deriving Repr, DecidableEq

/-- One event of the controller.

* `startCall` — `startRestTimer` synchronous prefix (lines 868–893):
  increment the token and capture it, clear `restNotificationId`,
  cancel the previously adopted handle, request a schedule (recorded in
  `pending`).
* `clearCall` — `clearRestTimer` (lines 856–866): increment the token,
  clear `restNotificationId`, cancel the adopted handle.
* `resolve c` — a pending schedule call with captured token `c`
  returns handle `c` (lines 895–900): the notification is now live;
  adopt it if `c` is still the current token, otherwise cancel it
  immediately.
* `resolveNull c` — the same return but with a `null` handle (no
  permission): nothing was scheduled; adopting or cancelling `null`
  are both no-ops on the live set. -/
def restStep (s : RestControllerState) (e : RestEvent) : RestControllerState :=
  match e with
  | RestEvent.startCall =>
    let nextToken := s.token + 1
    { token := nextToken
      notifId := none
      pending := s.pending ++ [nextToken]
      scheduled := cancelAdopted s.scheduled s.notifId }
  | RestEvent.clearCall =>
    { token := s.token + 1
      notifId := none
      pending := s.pending
      scheduled := cancelAdopted s.scheduled s.notifId }
  | RestEvent.resolve c =>
    if c ∈ s.pending then
      let nowLive := s.scheduled ++ [c]
      if c = s.token then
        { token := s.token
          notifId := some c
          pending := s.pending.erase c
          scheduled := nowLive }
      else
        { token := s.token
          notifId := s.notifId
          pending := s.pending.erase c
          scheduled := nowLive.erase c }
    else
      s
  | RestEvent.resolveNull c =>
    if c ∈ s.pending then
      if c = s.token then
        { token := s.token
          notifId := none
          pending := s.pending.erase c
          scheduled := s.scheduled }
      else
        { token := s.token
          notifId := s.notifId
          pending := s.pending.erase c
          scheduled := s.scheduled }
    else
      s

/-- Run a sequence of controller events from a state. -/
def restRun (s : RestControllerState) (events : List RestEvent) : RestControllerState :=
  events.foldl restStep s

/-! ### Concrete fixtures used by the theorems below -/

/-- The spec's worked overload example: `{startWeight: 100kg, weeklyIncrement: 2.5kg}`. -/
def exOverloadExercise : WorkoutExercise :=
  { id := "ex1", name := "Bench", sets := 3, reps := 10, restSeconds := 90
    startWeightKg := 100, overloadIncrementKg := 2.5, sortOrder := 0 }

/-- Template for the overload example, `weeksCompleted = 3`. -/
def exOverloadWorkout : Workout :=
  { id := "w1", name := "Push", createdAt := 0, weeksCompleted := 3
    exercises := [exOverloadExercise] }

/-- An assisted exercise: negative start weight. -/
def exAssistedExercise : WorkoutExercise :=
  { id := "ex2", name := "Assisted Pull-up", sets := 3, reps := 8, restSeconds := 90
    startWeightKg := -40, overloadIncrementKg := 2.5, sortOrder := 1 }

/-- A live set whose weight was edited away from the target:
`targetWeightKg = 100` but `actualWeightKg = 80`, with 5 logged reps. -/
def exEditedSet : ActiveWorkoutSet :=
  { id := "set1", workoutExerciseId := "ex1", exerciseName := "Bench"
    setNumber := 1, targetReps := 10, targetWeightKg := 100, restSeconds := 90
    actualReps := 5, actualWeightKg := some 80 }

/-- An unpaused active session containing `exEditedSet`. -/
def exEditedSession : ActiveWorkoutSession :=
  { workoutId := "w1", workoutName := "Push", startedAt := 0, bodyweightKg := none
    totalPausedMs := 0, pauseStartedAt := none, isPaused := false
    restoredFromAppClose := false, sets := [exEditedSet] }

/-- Store slice holding `exEditedSession`. -/
def exEditedStore : StoreState :=
  { workouts := [exOverloadWorkout], activeSession := some exEditedSession }

/-- A paused active session (for the pause-invariant witness). -/
def exPausedSession : ActiveWorkoutSession :=
  { workoutId := "w1", workoutName := "Push", startedAt := 0, bodyweightKg := none
    totalPausedMs := 100, pauseStartedAt := some 600, isPaused := true
    restoredFromAppClose := false, sets := [] }

/-- JSON of one structurally valid persisted set. -/
def exSetBlob : Json :=
  Json.obj [
    ("id", Json.str "set1"),
    ("workoutExerciseId", Json.str "ex1"),
    ("exerciseName", Json.str "Bench"),
    ("setNumber", Json.num 1),
    ("targetReps", Json.num 10),
    ("targetWeightKg", Json.num 100),
    ("restSeconds", Json.num 90),
    ("actualReps", Json.num 5),
    ("actualWeightKg", Json.num 80)]

/-- JSON of a structurally valid persisted session with `isPaused = false`. -/
def exSessionBlob : Json :=
  Json.obj [
    ("workoutId", Json.str "w1"),
    ("workoutName", Json.str "Push"),
    ("startedAt", Json.num 500),
    ("bodyweightKg", Json.null),
    ("totalPausedMs", Json.num 250),
    ("pauseStartedAt", Json.null),
    ("isPaused", Json.bool false),
    ("restoredFromAppClose", Json.bool false),
    ("sets", Json.arr [exSetBlob])]

/-- The session `exSessionBlob` normalizes to. -/
def exLoadedSession : ActiveWorkoutSession :=
  { workoutId := "w1", workoutName := "Push", startedAt := 500, bodyweightKg := none
    totalPausedMs := 250, pauseStartedAt := none, isPaused := false
    restoredFromAppClose := false
    sets := [{ id := "set1", workoutExerciseId := "ex1", exerciseName := "Bench"
               setNumber := 1, targetReps := 10, targetWeightKg := 100
               restSeconds := 90, actualReps := 5, actualWeightKg := some 80 }] }

/-- A structurally invalid blob (`workoutId` is a number, most fields
missing). -/
def exCorruptBlob : Json :=
  Json.obj [("workoutId", Json.num 3)]

/-! ### Claim theorems -/

/-- **C8.** For every template and exercise with `weeksCompleted ≥ 0`,
`targetWeight = startWeight + weeklyIncrement × weeksCompleted` (pure and
total; the result may be negative and is never clamped), and
`advanceWorkoutWeek` increments `weeksCompleted` by exactly 1; in
particular startWeight 100 kg, increment 2.5 kg, weeksCompleted 3 gives
107.5, and after one more `advanceWorkoutWeek` gives 110. -/
theorem overload_target_weight_formula :
    (∀ (workout : Workout) (exercise : WorkoutExercise),
        0 ≤ workout.weeksCompleted →
        getTargetWeightKg workout exercise
          = exercise.startWeightKg + exercise.overloadIncrementKg * workout.weeksCompleted) ∧
    (∀ (workouts : List Workout) (workoutId : String) (w : Workout),
        w ∈ workouts → w.id = workoutId →
        { w with weeksCompleted := w.weeksCompleted + 1 } ∈ advanceWorkoutWeek workouts workoutId) ∧
    getTargetWeightKg exOverloadWorkout exOverloadExercise = 107.5 ∧
    advanceWorkoutWeek [exOverloadWorkout] "w1"
      = [{ exOverloadWorkout with weeksCompleted := 4 }] ∧
    getTargetWeightKg { exOverloadWorkout with weeksCompleted := 4 } exOverloadExercise = 110 ∧
    getTargetWeightKg exOverloadWorkout exAssistedExercise = -32.5 ∧
    getTargetWeightKg exOverloadWorkout exAssistedExercise < 0 := by
  refine ⟨fun _ _ _ => rfl, ?_, ?_, ?_, ?_, ?_, ?_⟩
  · intro workouts workoutId w hw hid
    have hfun :
        (if w.id == workoutId then { w with weeksCompleted := w.weeksCompleted + 1 } else w)
          = { w with weeksCompleted := w.weeksCompleted + 1 } := by
      simp [hid]
    unfold advanceWorkoutWeek
    exact hfun ▸ List.mem_map_of_mem _ hw
  · norm_num [getTargetWeightKg, exOverloadWorkout, exOverloadExercise]
  · norm_num [advanceWorkoutWeek, exOverloadWorkout]
  · norm_num [getTargetWeightKg, exOverloadWorkout, exOverloadExercise]
  · norm_num [getTargetWeightKg, exOverloadWorkout, exAssistedExercise]
  · norm_num [getTargetWeightKg, exOverloadWorkout, exAssistedExercise]

/-- Witness for `overload_target_weight_formula`: its hypotheses hold at
the worked example. -/
theorem overload_target_weight_formula_witness :
    (0 : Rat) ≤ exOverloadWorkout.weeksCompleted ∧
    exOverloadWorkout ∈ [exOverloadWorkout] ∧
    exOverloadWorkout.id = "w1" ∧
    getTargetWeightKg exOverloadWorkout exOverloadExercise
      = exOverloadExercise.startWeightKg
        + exOverloadExercise.overloadIncrementKg * exOverloadWorkout.weeksCompleted ∧
    { exOverloadWorkout with weeksCompleted := exOverloadWorkout.weeksCompleted + 1 }
      ∈ advanceWorkoutWeek [exOverloadWorkout] "w1" :=
  ⟨by decide, by simp, rfl,
    overload_target_weight_formula.1 exOverloadWorkout exOverloadExercise (by decide),
    overload_target_weight_formula.2.1 [exOverloadWorkout] "w1" exOverloadWorkout (by simp) rfl⟩

/-- **C4.** `start(workoutId)` is a no-op success when an active session
for the same `workoutId` exists (state — hence `startedAt` and `sets` —
is untouched and no persistence write happens), and fails with the
conflict error when an active session for a different `workoutId`
exists, leaving the state unchanged. -/
theorem start_idempotent_same_conflict_different :
    (∀ (st : StoreState) (s : ActiveWorkoutSession) (workoutId : String) (now : Rat)
        (ids : Nat → Nat → String),
        st.activeSession = some s → s.workoutId = workoutId →
        startWorkoutSession st workoutId now ids = ⟨none, st, []⟩) ∧
    (∀ (st : StoreState) (s : ActiveWorkoutSession) (workoutId : String) (now : Rat)
        (ids : Nat → Nat → String),
        st.activeSession = some s → s.workoutId ≠ workoutId →
        startWorkoutSession st workoutId now ids = ⟨some StoreError.conflict, st, []⟩) := by
  constructor
  · intro st s workoutId now ids hs hid
    simp [startWorkoutSession, hs, hid]
  · intro st s workoutId now ids hs hid
    simp [startWorkoutSession, hs, hid]

/-- Witness for `start_idempotent_same_conflict_different` at a concrete
store with an active "w1" session. -/
theorem start_idempotent_same_conflict_different_witness :
    exEditedStore.activeSession = some exEditedSession ∧
    exEditedSession.workoutId = "w1" ∧
    exEditedSession.workoutId ≠ "w2" ∧
    startWorkoutSession exEditedStore "w1" 999 (fun _ _ => "id") = ⟨none, exEditedStore, []⟩ ∧
    startWorkoutSession exEditedStore "w2" 999 (fun _ _ => "id")
      = ⟨some StoreError.conflict, exEditedStore, []⟩ :=
  ⟨rfl, rfl, by decide,
    start_idempotent_same_conflict_different.1 exEditedStore exEditedSession "w1" 999
      (fun _ _ => "id") rfl rfl,
    start_idempotent_same_conflict_different.2 exEditedStore exEditedSession "w2" 999
      (fun _ _ => "id") rfl (by decide)⟩

/-- **C10.** With no active session every session transition is a silent
no-op (no error, no state change, no persistence write); with an active
session, tap-set and set-custom-reps on a `setId` matching no set return
without error, change nothing, and write nothing. -/
theorem no_session_and_unknown_set_noops :
    (∀ (st : StoreState) (setId : String) (reps : Rat) (bw : Option Rat) (now : Rat),
        st.activeSession = none →
        decrementOrCompleteSessionSet st setId = ⟨none, st, []⟩ ∧
        setSessionSetCustomReps st setId reps = ⟨none, st, []⟩ ∧
        setActiveWorkoutBodyweight st bw = ⟨none, st, []⟩ ∧
        pauseActiveWorkoutSession st now = ⟨none, st, []⟩ ∧
        resumeActiveWorkoutSession st now = ⟨none, st, []⟩ ∧
        finishActiveWorkoutSession st now = ⟨none, st, []⟩ ∧
        discardActiveWorkoutSession st = ⟨none, st, []⟩) ∧
    (∀ (st : StoreState) (session : ActiveWorkoutSession) (setId : String) (reps : Rat),
        st.activeSession = some session →
        (session.sets.any (fun setEntry => setEntry.id == setId)) = false →
        decrementOrCompleteSessionSet st setId = ⟨none, st, []⟩ ∧
        setSessionSetCustomReps st setId reps = ⟨none, st, []⟩) := by
  constructor
  · intro st setId reps bw now h
    refine ⟨?_, ?_, ?_, ?_, ?_, ?_, ?_⟩ <;>
      simp [decrementOrCompleteSessionSet, setSessionSetCustomReps,
        setActiveWorkoutBodyweight, pauseActiveWorkoutSession,
        resumeActiveWorkoutSession, finishActiveWorkoutSession,
        discardActiveWorkoutSession, h]
  · intro st session setId reps hs hmiss
    constructor
    · simp [decrementOrCompleteSessionSet, hs, hmiss]
    · simp [setSessionSetCustomReps, hs, hmiss]

/-- Witness for `no_session_and_unknown_set_noops`: an idle store and a
store whose session has no set named "nope". -/
theorem no_session_and_unknown_set_noops_witness :
    (StoreState.mk [] none).activeSession = none ∧
    exEditedStore.activeSession = some exEditedSession ∧
    (exEditedSession.sets.any (fun setEntry => setEntry.id == "nope")) = false ∧
    decrementOrCompleteSessionSet (StoreState.mk [] none) "set1"
      = ⟨none, StoreState.mk [] none, []⟩ ∧
    decrementOrCompleteSessionSet exEditedStore "nope" = ⟨none, exEditedStore, []⟩ ∧
    setSessionSetCustomReps exEditedStore "nope" 7 = ⟨none, exEditedStore, []⟩ :=
  ⟨rfl, rfl, by decide,
    (no_session_and_unknown_set_noops.1 (StoreState.mk [] none) "set1" 0 none 0 rfl).1,
    (no_session_and_unknown_set_noops.2 exEditedStore exEditedSession "nope" 7 rfl (by decide)).1,
    (no_session_and_unknown_set_noops.2 exEditedStore exEditedSession "nope" 7 rfl (by decide)).2⟩

/-- **C1.** Evaluation of `finishActiveWorkoutSession` at a session whose
set was edited to `actualWeightKg = 80` against `targetWeightKg = 100`:
the single history record it writes carries `reps = actualReps = 5` but
`weightKg = 100` — the **target** weight, not the set's `actualWeightKg`
(source line 549: `weightKg: setEntry.targetWeightKg`), contradicting
the spec's "using `actualWeightKg`, not `targetWeightKg`". The
exactly-one-record and no-active-session-afterwards parts do hold. -/
theorem finish_writes_target_weight_not_actual :
    (finishActiveWorkoutSession exEditedStore 1000).effects
      = [DbEffect.createSession
          { workoutId := "w1", performedAt := 1000, bodyweightKg := none
            sets := [{ workoutExerciseId := "ex1", exerciseName := "Bench"
                       setNumber := 1, reps := 5, weightKg := 100 }] },
         DbEffect.clearActive] ∧
    (finishActiveWorkoutSession exEditedStore 1000).state.activeSession = none ∧
    (finishActiveWorkoutSession exEditedStore 1000).error = none ∧
    exEditedSet.actualWeightKg = some 80 ∧
    exEditedSet.actualReps = 5 ∧
    (100 : Rat) ≠ 80 := by
  decide

/-- **C2, counterexample.** Calling `setSessionSetCustomReps` with
`reps = -3` on a set holding `actualReps = 5` is *not* rejected: no
error is produced, a persistence write happens, and the set's
`actualReps` is overwritten with 0 — the session state is changed. -/
theorem setCustomReps_negative_not_rejected :
    (setSessionSetCustomReps exEditedStore "set1" (-3)).error = none ∧
    (setSessionSetCustomReps exEditedStore "set1" (-3)).state.activeSession
      = some { exEditedSession with sets := [{ exEditedSet with actualReps := 0 }] } ∧
    (setSessionSetCustomReps exEditedStore "set1" (-3)).state.activeSession
      ≠ exEditedStore.activeSession ∧
    (setSessionSetCustomReps exEditedStore "set1" (-3)).effects
      = [DbEffect.saveActive { exEditedSession with sets := [{ exEditedSet with actualReps := 0 }] }] := by
  decide

/-- The session produced by overwriting the matching set's `actualReps`
with a value (used to phrase what `setSessionSetCustomReps` does). -/
def overwriteSetReps (session : ActiveWorkoutSession) (setId : String) (value : Rat) :
    ActiveWorkoutSession :=
  { session with
      sets := session.sets.map (fun setEntry =>
        if setEntry.id == setId then { setEntry with actualReps := value } else setEntry) }

/-- **C2, amended.** A call with negative `reps` is accepted, not
rejected: `reps` is normalized to `max(0, floor(reps)) = 0`, the
targeted set's `actualReps` is overwritten with 0 (a state change that
is persisted), and the session is otherwise unchanged; the inline
"Reps must be zero or above." rejection lives in the screen layer
(`saveCustomSetValues`), which never forwards negative values to this
store transition. -/
theorem setCustomReps_negative_clamped :
    ∀ (st : StoreState) (session : ActiveWorkoutSession) (setId : String) (reps : Rat),
      st.activeSession = some session →
      reps < 0 →
      (session.sets.any (fun setEntry => setEntry.id == setId)) = true →
      setSessionSetCustomReps st setId reps
        = ⟨none, { st with activeSession := some (overwriteSetReps session setId 0) },
           [DbEffect.saveActive (overwriteSetReps session setId 0)]⟩ := by
  intro st session setId reps hs hneg hmatch
  have hfloor : ((reps.floor : Rat)) ≤ reps := Rat.le_floor.mp le_rfl
  have hclamp : max (0 : Rat) (reps.floor : Rat) = 0 :=
    max_eq_left (le_of_lt (lt_of_le_of_lt hfloor hneg))
  simp [setSessionSetCustomReps, overwriteSetReps, hs, hmatch, hclamp]

/-- Witness for `setCustomReps_negative_clamped` at the concrete edited
store and `reps = -3`. -/
theorem setCustomReps_negative_clamped_witness :
    exEditedStore.activeSession = some exEditedSession ∧
    (-3 : Rat) < 0 ∧
    (exEditedSession.sets.any (fun setEntry => setEntry.id == "set1")) = true ∧
    setSessionSetCustomReps exEditedStore "set1" (-3)
      = ⟨none,
         { exEditedStore with activeSession := some (overwriteSetReps exEditedSession "set1" 0) },
         [DbEffect.saveActive (overwriteSetReps exEditedSession "set1" 0)]⟩ :=
  ⟨rfl, by decide, by decide,
    setCustomReps_negative_clamped exEditedStore exEditedSession "set1" (-3) rfl
      (by decide) (by decide)⟩

/-- The session produced by running the tap transform on the matching
set (used to phrase what `decrementOrCompleteSessionSet` does). -/
def tapSetInSession (session : ActiveWorkoutSession) (setId : String) : ActiveWorkoutSession :=
  { session with
      sets := session.sets.map (fun setEntry =>
        if setEntry.id == setId then decrementOrCompleteSetEntry setEntry else setEntry) }

/-- A fresh (never-tapped) set: `actualReps = 0`, `targetReps = 10`. -/
def exFreshSet : ActiveWorkoutSet :=
  { id := "set2", workoutExerciseId := "ex1", exerciseName := "Bench"
    setNumber := 2, targetReps := 10, targetWeightKg := 100, restSeconds := 90
    actualReps := 0, actualWeightKg := some 100 }

/-- **C5.** Tapping a set with `actualReps = 0` sets `actualReps` to
`targetReps` and signals a rest-timer start (`handleSetPress` computes
`shouldStartRest` from the pre-tap value); tapping a set with
`actualReps > 0` decrements it by exactly 1 (stated for integer rep
counts, which is the data model's `actualReps : integer ≥ 0`); the
result is never negative; and the store transition applies exactly this
per-set transform to the matching set and persists the session. -/
theorem tapSet_complete_decrement_floor :
    (∀ (setEntry : ActiveWorkoutSet),
        setEntry.actualReps = 0 →
        (decrementOrCompleteSetEntry setEntry).actualReps = setEntry.targetReps ∧
        handleSetPressStartsRest setEntry = true) ∧
    (∀ (setEntry : ActiveWorkoutSet) (n : Nat),
        setEntry.actualReps = (n : Rat) → 0 < setEntry.actualReps →
        (decrementOrCompleteSetEntry setEntry).actualReps = setEntry.actualReps - 1 ∧
        handleSetPressStartsRest setEntry = false) ∧
    (∀ (setEntry : ActiveWorkoutSet),
        0 ≤ setEntry.actualReps → 0 ≤ setEntry.targetReps →
        0 ≤ (decrementOrCompleteSetEntry setEntry).actualReps) ∧
    (∀ (st : StoreState) (session : ActiveWorkoutSession) (setId : String),
        st.activeSession = some session →
        (session.sets.any (fun setEntry => setEntry.id == setId)) = true →
        decrementOrCompleteSessionSet st setId
          = ⟨none, { st with activeSession := some (tapSetInSession session setId) },
             [DbEffect.saveActive (tapSetInSession session setId)]⟩) := by
  refine ⟨?_, ?_, ?_, ?_⟩
  · intro setEntry h
    simp [decrementOrCompleteSetEntry, handleSetPressStartsRest, h]
  · intro setEntry n hn hpos
    have hne : setEntry.actualReps ≠ 0 := ne_of_gt hpos
    have hone : (1 : Rat) ≤ setEntry.actualReps := by
      rw [hn]
      have : 1 ≤ n := by
        by_contra hlt
        push_neg at hlt
        interval_cases n
        · rw [hn] at hpos
          simp at hpos
      exact_mod_cast this
    constructor
    · simp only [decrementOrCompleteSetEntry, hne, if_false]
      exact max_eq_right (by linarith)
    · simp [handleSetPressStartsRest, hne]
  · intro setEntry h0 ht
    by_cases hz : setEntry.actualReps = 0
    · simpa [decrementOrCompleteSetEntry, hz] using ht
    · simp only [decrementOrCompleteSetEntry, hz, if_false]
      exact le_max_left 0 _
  · intro st session setId hs hmatch
    simp [decrementOrCompleteSessionSet, tapSetInSession, hs, hmatch]

/-- Witness for `tapSet_complete_decrement_floor`: a fresh set completes
to its target and signals rest; a set holding 5 reps decrements to 4
with no rest signal; the store transition at the edited store. -/
theorem tapSet_complete_decrement_floor_witness :
    exFreshSet.actualReps = 0 ∧
    exEditedSet.actualReps = ((5 : Nat) : Rat) ∧
    0 < exEditedSet.actualReps ∧
    0 ≤ exEditedSet.targetReps ∧
    exEditedStore.activeSession = some exEditedSession ∧
    (exEditedSession.sets.any (fun setEntry => setEntry.id == "set1")) = true ∧
    ((decrementOrCompleteSetEntry exFreshSet).actualReps = exFreshSet.targetReps ∧
      handleSetPressStartsRest exFreshSet = true) ∧
    ((decrementOrCompleteSetEntry exEditedSet).actualReps = exEditedSet.actualReps - 1 ∧
      handleSetPressStartsRest exEditedSet = false) ∧
    0 ≤ (decrementOrCompleteSetEntry exEditedSet).actualReps ∧
    decrementOrCompleteSessionSet exEditedStore "set1"
      = ⟨none, { exEditedStore with activeSession := some (tapSetInSession exEditedSession "set1") },
         [DbEffect.saveActive (tapSetInSession exEditedSession "set1")]⟩ :=
  ⟨rfl, rfl, by decide, by decide, rfl, by decide,
    tapSet_complete_decrement_floor.1 exFreshSet rfl,
    tapSet_complete_decrement_floor.2.1 exEditedSet 5 rfl (by decide),
    tapSet_complete_decrement_floor.2.2.1 exEditedSet (by decide) (by decide),
    tapSet_complete_decrement_floor.2.2.2 exEditedStore exEditedSession "set1" rfl (by decide)⟩

/-- The spec's elapsed-time formula (§4.3 "elapsed(now)"), written from
the spec's words: `now - startedAt - totalPausedMs -
(isPaused ? now - pauseStartedAt : 0)`, floored at 0. The `getD 0`
default is unreachable for sessions satisfying the pause invariant. -/
def specElapsedMs (session : ActiveWorkoutSession) (now : Rat) : Rat :=
  max 0 (now - session.startedAt - session.totalPausedMs -
    (if session.isPaused then now - session.pauseStartedAt.getD 0 else 0))

/-- **C6.** `getElapsedMs` equals the spec formula (for sessions whose
`pauseStartedAt` is present whenever paused), is never negative — for
any `now`, under clock skew and while paused — and pausing at `t` then
resuming at `t + Δ` (Δ ≥ 0) increases `totalPausedMs` by exactly Δ. -/
theorem elapsed_formula_nonneg_pause_resume :
    (∀ (session : ActiveWorkoutSession) (now : Rat),
        (session.isPaused = true → session.pauseStartedAt ≠ none) →
        getElapsedMs session now = specElapsedMs session now) ∧
    (∀ (session : ActiveWorkoutSession) (now : Rat), 0 ≤ getElapsedMs session now) ∧
    (∀ (session : ActiveWorkoutSession) (t delta : Rat),
        session.isPaused = false → 0 ≤ delta →
        (resumeSession (pauseSession session t) (t + delta)).totalPausedMs
          = session.totalPausedMs + delta) := by
  refine ⟨?_, ?_, ?_⟩
  · intro session now hp
    cases hip : session.isPaused
    · simp [getElapsedMs, specElapsedMs, hip]
    · obtain ⟨t0, ht0⟩ : ∃ t0, session.pauseStartedAt = some t0 := by
        cases hps : session.pauseStartedAt
        · exact absurd hps (hp hip)
        · exact ⟨_, rfl⟩
      simp [getElapsedMs, specElapsedMs, hip, ht0]
  · intro session now
    exact le_max_left 0 _
  · intro session t delta hnp hd
    have hdiff : t + delta - t = delta := by ring
    simp [pauseSession, resumeSession, elapsedPauseMs, hnp, hdiff, max_eq_right hd]

/-- Witness for `elapsed_formula_nonneg_pause_resume`: the paused
fixture satisfies the invariant hypothesis; the unpaused fixture paused
at 600 and resumed at 600 + 250 gains exactly 250 ms of pause. -/
theorem elapsed_formula_nonneg_pause_resume_witness :
    (exPausedSession.isPaused = true → exPausedSession.pauseStartedAt ≠ none) ∧
    exEditedSession.isPaused = false ∧
    (0 : Rat) ≤ 250 ∧
    getElapsedMs exPausedSession 700 = specElapsedMs exPausedSession 700 ∧
    0 ≤ getElapsedMs exPausedSession 700 ∧
    (resumeSession (pauseSession exEditedSession 600) (600 + 250)).totalPausedMs
      = exEditedSession.totalPausedMs + 250 :=
  ⟨by decide, rfl, by decide,
    elapsed_formula_nonneg_pause_resume.1 exPausedSession 700 (by decide),
    elapsed_formula_nonneg_pause_resume.2.1 exPausedSession 700,
    elapsed_formula_nonneg_pause_resume.2.2 exEditedSession 600 250 rfl (by decide)⟩

/-- The session-level pause invariant: `pauseStartedAt` is non-null iff
`isPaused`. -/
def sessionPauseInv (session : ActiveWorkoutSession) : Prop :=
  session.pauseStartedAt.isSome = session.isPaused

/-- The store-level pause invariant: the active session, when present,
satisfies `sessionPauseInv`. -/
def storePauseInv (st : StoreState) : Prop :=
  ∀ session, st.activeSession = some session → sessionPauseInv session

/-- **C7.** Every operation of the active-session state machine —
start, pause, resume, tap-set, set-custom-reps (the source's
"set-custom-values" transition), set-bodyweight, finish, discard, and
the cold-start recovery load — preserves the invariant that
`pauseStartedAt` is non-null iff `isPaused` is true (for recovery:
provided the session decoded from the blob satisfies it, which every
session the store itself persisted does). -/
theorem pause_flag_invariant_preserved :
    (∀ (st : StoreState) (workoutId : String) (now : Rat) (ids : Nat → Nat → String),
        storePauseInv st → storePauseInv (startWorkoutSession st workoutId now ids).state) ∧
    (∀ (st : StoreState) (now : Rat),
        storePauseInv st → storePauseInv (pauseActiveWorkoutSession st now).state) ∧
    (∀ (st : StoreState) (now : Rat),
        storePauseInv st → storePauseInv (resumeActiveWorkoutSession st now).state) ∧
    (∀ (st : StoreState) (setId : String),
        storePauseInv st → storePauseInv (decrementOrCompleteSessionSet st setId).state) ∧
    (∀ (st : StoreState) (setId : String) (reps : Rat),
        storePauseInv st → storePauseInv (setSessionSetCustomReps st setId reps).state) ∧
    (∀ (st : StoreState) (bw : Option Rat),
        storePauseInv st → storePauseInv (setActiveWorkoutBodyweight st bw).state) ∧
    (∀ (st : StoreState) (now : Rat),
        storePauseInv (finishActiveWorkoutSession st now).state) ∧
    (∀ (st : StoreState),
        storePauseInv (discardActiveWorkoutSession st).state) ∧
    (∀ (stored : Option Json) (workouts : List Workout) (now : Rat),
        (∀ s, loadActiveWorkoutSession stored = some s → sessionPauseInv s) →
        ∀ s', (loadPersistedState stored workouts now).activeSession = some s' →
          sessionPauseInv s') := by
  refine ⟨?_, ?_, ?_, ?_, ?_, ?_, ?_, ?_, ?_⟩
  · intro st workoutId now ids hinv s' hs'
    unfold startWorkoutSession at hs'
    split at hs'
    · split at hs'
      · exact hinv s' hs'
      · exact hinv s' hs'
    · split at hs'
      · exact hinv s' hs'
      · have h := Option.some.inj hs'
        rw [← h]
        rfl
  · intro st now hinv s' hs'
    unfold pauseActiveWorkoutSession at hs'
    split at hs'
    · exact hinv s' hs'
    next session hsess =>
      split at hs'
      · exact hinv s' hs'
      next hip =>
        have h := Option.some.inj hs'
        rw [← h]
        show (pauseSession session now).pauseStartedAt.isSome
          = (pauseSession session now).isPaused
        simp [pauseSession, Bool.of_not_eq_true hip]
  · intro st now hinv s' hs'
    unfold resumeActiveWorkoutSession at hs'
    split at hs'
    · exact hinv s' hs'
    next session hsess =>
      split at hs'
      · exact hinv s' hs'
      next hip =>
        have h := Option.some.inj hs'
        rw [← h]
        show (resumeSession session now).pauseStartedAt.isSome
          = (resumeSession session now).isPaused
        have hp : session.isPaused = true := by
          revert hip
          cases session.isPaused <;> simp
        simp [resumeSession, hp]
  · intro st setId hinv s' hs'
    unfold decrementOrCompleteSessionSet at hs'
    split at hs'
    · exact hinv s' hs'
    next session hsess =>
      dsimp only [] at hs'
      split at hs'
      · exact hinv s' hs'
      · have h := Option.some.inj hs'
        rw [← h]
        exact hinv session hsess
  · intro st setId reps hinv s' hs'
    unfold setSessionSetCustomReps at hs'
    split at hs'
    · exact hinv s' hs'
    next session hsess =>
      dsimp only [] at hs'
      split at hs'
      · exact hinv s' hs'
      · have h := Option.some.inj hs'
        rw [← h]
        exact hinv session hsess
  · intro st bw hinv s' hs'
    unfold setActiveWorkoutBodyweight at hs'
    split at hs'
    · exact hinv s' hs'
    next session hsess =>
      dsimp only [] at hs'
      split at hs' <;> (try split at hs') <;>
        first
        | exact hinv s' hs'
        | (have h := Option.some.inj hs'; rw [← h]; exact hinv session hsess)
  · intro st now s' hs'
    unfold finishActiveWorkoutSession at hs'
    split at hs'
    next hsess =>
      rw [hsess] at hs'
      exact absurd hs' (by simp)
    next session hsess =>
      exact absurd hs' (by simp)
  · intro st s' hs'
    unfold discardActiveWorkoutSession at hs'
    split at hs'
    next hsess =>
      rw [hsess] at hs'
      exact absurd hs' (by simp)
    next session hsess =>
      exact absurd hs' (by simp)
  · intro stored workouts now hload s' hs'
    unfold loadPersistedState at hs'
    split at hs'
    · exact absurd hs' (by simp)
    next session hsess =>
      have hsinv : sessionPauseInv session := hload session hsess
      split at hs'
      · split at hs'
        next hip =>
          have h := Option.some.inj hs'
          rw [← h]
          show (pauseSession session now).pauseStartedAt.isSome
            = (pauseSession session now).isPaused
          simp [pauseSession, Bool.of_not_eq_true (by simpa using hip)]
        · have h := Option.some.inj hs'
          rw [← h]
          exact hsinv
      · exact absurd hs' (by simp)

/-- Witness for `pause_flag_invariant_preserved`: the invariant holds at
the paused fixture store and is preserved by a pause and a recovery
load of the valid fixture blob. -/
theorem pause_flag_invariant_preserved_witness :
    storePauseInv exEditedStore ∧
    storePauseInv (pauseActiveWorkoutSession exEditedStore 600).state ∧
    (∀ s, loadActiveWorkoutSession (some exSessionBlob) = some s → sessionPauseInv s) ∧
    (∀ s', (loadPersistedState (some exSessionBlob) [exOverloadWorkout] 900).activeSession = some s' →
      sessionPauseInv s') :=
  ⟨by
      intro s hs
      rw [show exEditedStore.activeSession = some exEditedSession from rfl] at hs
      injection hs with h
      rw [← h]
      rfl,
    pause_flag_invariant_preserved.2.1 exEditedStore 600
      (by
        intro s hs
        rw [show exEditedStore.activeSession = some exEditedSession from rfl] at hs
        injection hs with h
        rw [← h]
        rfl),
    by
      intro s hs
      have hn : loadActiveWorkoutSession (some exSessionBlob) = some exLoadedSession := by decide
      rw [hn] at hs
      injection hs with h
      rw [← h]
      rfl,
    pause_flag_invariant_preserved.2.2.2.2.2.2.2.2 (some exSessionBlob) [exOverloadWorkout] 900
      (by
        intro s hs
        have hn : loadActiveWorkoutSession (some exSessionBlob) = some exLoadedSession := by decide
        rw [hn] at hs
        injection hs with h
        rw [← h]
        rfl)⟩

/-- The restored session adopted on recovery of a non-paused blob:
`{ ...pauseSession(activeSession, Date.now()), restoredFromAppClose: true }`. -/
def forcePausedOnRestore (s : ActiveWorkoutSession) (now : Rat) : ActiveWorkoutSession :=
  { pauseSession s now with restoredFromAppClose := true }

/-- **C3.** Cold-start recovery (total by construction, hence it never
throws): a structurally invalid blob yields no active session and no
storage writes; a valid blob whose `workoutId` matches no template
yields no active session and clears the singleton store; a valid blob
with `isPaused = false` is adopted force-paused at `now` with
`restoredFromAppClose = true`, its `sets`, `startedAt` and
`totalPausedMs` unchanged, and is immediately re-persisted. -/
theorem recovery_coldstart_behaviour :
    (∀ (blob : Json) (workouts : List Workout) (now : Rat),
        normalizeActiveWorkoutSession blob = none →
        loadPersistedState (some blob) workouts now = ⟨none, []⟩) ∧
    (∀ (blob : Json) (s : ActiveWorkoutSession) (workouts : List Workout) (now : Rat),
        normalizeActiveWorkoutSession blob = some s →
        (workouts.any (fun workout => workout.id == s.workoutId)) = false →
        loadPersistedState (some blob) workouts now = ⟨none, [DbEffect.clearActive]⟩) ∧
    (∀ (blob : Json) (s : ActiveWorkoutSession) (workouts : List Workout) (now : Rat),
        normalizeActiveWorkoutSession blob = some s →
        (workouts.any (fun workout => workout.id == s.workoutId)) = true →
        s.isPaused = false →
        loadPersistedState (some blob) workouts now
          = ⟨some (forcePausedOnRestore s now),
             [DbEffect.saveActive (forcePausedOnRestore s now)]⟩ ∧
        (forcePausedOnRestore s now).isPaused = true ∧
        (forcePausedOnRestore s now).pauseStartedAt = some now ∧
        (forcePausedOnRestore s now).restoredFromAppClose = true ∧
        (forcePausedOnRestore s now).sets = s.sets ∧
        (forcePausedOnRestore s now).startedAt = s.startedAt ∧
        (forcePausedOnRestore s now).totalPausedMs = s.totalPausedMs) := by
  refine ⟨?_, ?_, ?_⟩
  · intro blob workouts now h
    simp [loadPersistedState, loadActiveWorkoutSession, h]
  · intro blob s workouts now h1 h2
    simp [loadPersistedState, loadActiveWorkoutSession, h1, h2]
  · intro blob s workouts now h1 h2 h3
    refine ⟨?_, ?_, ?_, ?_, ?_, ?_, ?_⟩ <;>
      simp [loadPersistedState, loadActiveWorkoutSession, forcePausedOnRestore,
        pauseSession, h1, h2, h3]

/-- Witness for `recovery_coldstart_behaviour`: the corrupt fixture blob
normalizes to `none`; the valid fixture blob is dropped when no
template matches and is adopted force-paused (at 900) when one does. -/
theorem recovery_coldstart_behaviour_witness :
    normalizeActiveWorkoutSession exCorruptBlob = none ∧
    normalizeActiveWorkoutSession exSessionBlob = some exLoadedSession ∧
    (List.any [] (fun (workout : Workout) => workout.id == exLoadedSession.workoutId)) = false ∧
    ([exOverloadWorkout].any (fun workout => workout.id == exLoadedSession.workoutId)) = true ∧
    exLoadedSession.isPaused = false ∧
    loadPersistedState (some exCorruptBlob) [exOverloadWorkout] 900 = ⟨none, []⟩ ∧
    loadPersistedState (some exSessionBlob) [] 900 = ⟨none, [DbEffect.clearActive]⟩ ∧
    loadPersistedState (some exSessionBlob) [exOverloadWorkout] 900
      = ⟨some (forcePausedOnRestore exLoadedSession 900),
         [DbEffect.saveActive (forcePausedOnRestore exLoadedSession 900)]⟩ ∧
    (forcePausedOnRestore exLoadedSession 900).pauseStartedAt = some 900 ∧
    (forcePausedOnRestore exLoadedSession 900).sets = exLoadedSession.sets :=
  ⟨by decide, by decide, by decide, by decide, rfl,
    recovery_coldstart_behaviour.1 exCorruptBlob [exOverloadWorkout] 900 (by decide),
    recovery_coldstart_behaviour.2.1 exSessionBlob exLoadedSession [] 900 (by decide) (by decide),
    (recovery_coldstart_behaviour.2.2 exSessionBlob exLoadedSession [exOverloadWorkout] 900
      (by decide) (by decide) rfl).1,
    (recovery_coldstart_behaviour.2.2 exSessionBlob exLoadedSession [exOverloadWorkout] 900
      (by decide) (by decide) rfl).2.2.1,
    (recovery_coldstart_behaviour.2.2 exSessionBlob exLoadedSession [exOverloadWorkout] 900
      (by decide) (by decide) rfl).2.2.2.2.1⟩

/-- Invariant of the rest-timer controller: in-flight captured tokens
are pairwise distinct and never exceed the current token; an adopted
handle equals the current token, is the only live notification, and
renders every in-flight call stale; with no adopted handle nothing is
live. -/
def restControllerInv (s : RestControllerState) : Prop :=
  s.pending.Nodup ∧
  (∀ c ∈ s.pending, c ≤ s.token) ∧
  (∀ h, s.notifId = some h →
    h = s.token ∧ s.scheduled = [h] ∧ ∀ c ∈ s.pending, c < s.token) ∧
  (s.notifId = none → s.scheduled = [])

/-- Cancelling the adopted handle empties the live set, under the
invariant's last two conjuncts. -/
theorem cancelAdopted_eq_nil (s : RestControllerState)
    (hadopt : ∀ h, s.notifId = some h →
      h = s.token ∧ s.scheduled = [h] ∧ ∀ c ∈ s.pending, c < s.token)
    (hnone : s.notifId = none → s.scheduled = []) :
    cancelAdopted s.scheduled s.notifId = [] := by
  cases hn : s.notifId with
  | none => simpa [cancelAdopted] using hnone hn
  | some h =>
    obtain ⟨-, hsched, -⟩ := hadopt h hn
    simp [cancelAdopted, hsched]

/-- One controller event preserves `restControllerInv`. -/
theorem restStep_preserves_inv (s : RestControllerState) (e : RestEvent)
    (hinv : restControllerInv s) : restControllerInv (restStep s e) := by
  obtain ⟨hnd, hbound, hadopt, hnone⟩ := hinv
  cases e with
  | startCall =>
    dsimp only [restStep]
    refine ⟨?_, ?_, ?_, ?_⟩
    · rw [List.nodup_append]
      refine ⟨hnd, List.nodup_singleton _, ?_⟩
      intro a ha hb
      have h1 := hbound a ha
      have h2 : a = s.token + 1 := by simpa using hb
      omega
    · intro c hc
      show c ≤ s.token + 1
      rcases List.mem_append.mp hc with h | h
      · exact Nat.le_trans (hbound c h) (Nat.le_succ _)
      · simp only [List.mem_singleton] at h
        omega
    · intro h hh
      exact absurd hh (by simp)
    · intro _
      exact cancelAdopted_eq_nil s hadopt hnone
  | clearCall =>
    dsimp only [restStep]
    refine ⟨hnd, ?_, ?_, ?_⟩
    · intro c hc
      exact Nat.le_trans (hbound c hc) (Nat.le_succ _)
    · intro h hh
      exact absurd hh (by simp)
    · intro _
      exact cancelAdopted_eq_nil s hadopt hnone
  | resolve c =>
    dsimp only [restStep]
    by_cases hc : c ∈ s.pending
    · rw [if_pos hc]
      by_cases hct : c = s.token
      · rw [if_pos hct]
        have hnid : s.notifId = none := by
          cases hn : s.notifId with
          | none => rfl
          | some h =>
            have := (hadopt h hn).2.2 c hc
            omega
        have hsched : s.scheduled = [] := hnone hnid
        refine ⟨hnd.erase c, ?_, ?_, ?_⟩
        · intro c' hc'
          exact hbound c' (List.mem_of_mem_erase hc')
        · intro h hh
          have hh' : h = c := by simpa using hh.symm
          subst hh'
          refine ⟨hct, by simp [hsched], ?_⟩
          intro c' hc'
          show c' < s.token
          obtain ⟨hne, hmem⟩ := (List.Nodup.mem_erase_iff hnd).mp hc'
          have := hbound c' hmem
          omega
        · intro hcontra
          simp at hcontra
      · rw [if_neg hct]
        refine ⟨hnd.erase c, ?_, ?_, ?_⟩
        · intro c' hc'
          exact hbound c' (List.mem_of_mem_erase hc')
        · intro h hh
          obtain ⟨hht, hsched, hstale⟩ := hadopt h hh
          refine ⟨hht, ?_, ?_⟩
          · have hne : ¬(c == h) := by
              simp only [beq_iff_eq]
              omega
            rw [hsched]
            rw [show ([h] ++ [c] : List Nat) = h :: [c] from rfl]
            rw [List.erase_cons_tail (by simpa [beq_iff_eq] using fun hch => hne (by simp [hch]))]
            simp
          · intro c' hc'
            exact hstale c' (List.mem_of_mem_erase hc')
        · intro hn
          rw [hnone hn]
          simp
    · rw [if_neg hc]
      exact ⟨hnd, hbound, hadopt, hnone⟩
  | resolveNull c =>
    dsimp only [restStep]
    by_cases hc : c ∈ s.pending
    · rw [if_pos hc]
      by_cases hct : c = s.token
      · rw [if_pos hct]
        have hnid : s.notifId = none := by
          cases hn : s.notifId with
          | none => rfl
          | some h =>
            have := (hadopt h hn).2.2 c hc
            omega
        refine ⟨hnd.erase c, ?_, ?_, ?_⟩
        · intro c' hc'
          exact hbound c' (List.mem_of_mem_erase hc')
        · intro h hh
          exact absurd hh (by simp)
        · intro _
          exact hnone hnid
      · rw [if_neg hct]
        refine ⟨hnd.erase c, ?_, ?_, ?_⟩
        · intro c' hc'
          exact hbound c' (List.mem_of_mem_erase hc')
        · intro h hh
          obtain ⟨hht, hsched, hstale⟩ := hadopt h hh
          exact ⟨hht, hsched, fun c' hc' => hstale c' (List.mem_of_mem_erase hc')⟩
        · exact hnone
    · rw [if_neg hc]
      exact ⟨hnd, hbound, hadopt, hnone⟩

/-- Running any event sequence preserves `restControllerInv`. -/
theorem restRun_preserves_inv (events : List RestEvent) (s : RestControllerState)
    (hinv : restControllerInv s) : restControllerInv (restRun s events) := by
  induction events generalizing s with
  | nil => exact hinv
  | cons e rest ih => exact ih _ (restStep_preserves_inv s e hinv)

/-- The initial controller state satisfies the invariant. -/
theorem restInit_inv : restControllerInv restInit := by
  refine ⟨List.nodup_nil, ?_, ?_, fun _ => rfl⟩
  · intro c hc
    simp [restInit] at hc
  · intro h hh
    exact absurd hh (by simp [restInit])

/-- **C9.** For every interleaving of rest-timer start/clear calls and
schedule resolutions, at most one scheduled notification is live; and
in the A-then-B race (B started before A's schedule resolves), whatever
order the two resolutions land, exactly one live notification remains —
B's (handle 2, adopted) — while A's late handle (1) is cancelled at its
own resolution instead of being adopted. -/
theorem rest_timer_single_live_notification :
    (∀ (events : List RestEvent), ((restRun restInit events).scheduled).length ≤ 1) ∧
    restRun restInit [RestEvent.startCall, RestEvent.startCall, RestEvent.resolve 1]
      = ⟨2, none, [2], []⟩ ∧
    restRun restInit
        [RestEvent.startCall, RestEvent.startCall, RestEvent.resolve 1, RestEvent.resolve 2]
      = ⟨2, some 2, [], [2]⟩ ∧
    restRun restInit
        [RestEvent.startCall, RestEvent.startCall, RestEvent.resolve 2, RestEvent.resolve 1]
      = ⟨2, some 2, [], [2]⟩ := by
  refine ⟨?_, by decide, by decide, by decide⟩
  intro events
  obtain ⟨-, -, hadopt, hnone⟩ := restRun_preserves_inv events restInit restInit_inv
  cases hn : (restRun restInit events).notifId with
  | none => simp [hnone hn]
  | some h =>
    obtain ⟨-, hsched, -⟩ := hadopt h hn
    simp [hsched]

end Apex
